import Mathlib

/-!
Verification of the natal-chart computation core of the astrolia backend
(`app/routers/natal_chart.py`).

Python floats are modelled as exact rationals (`ℚ`); Python semantics of
`int(·)` (truncation toward zero), `%` on floats (result has the sign of
the divisor), and `round(·, 2)` (round-half-even at two decimals) are made
explicit below. Calls into the external `skyfield` library (ephemeris
lookups, `ts.utc`, `ts.now`, `earth_rotation_angle`) are modelled by an
environment `SkyfieldEnv` of uninterpreted functions, since that library is
not part of this repository.
-/

/-- Python `int(x)` on a float `x`: truncation toward zero. -/
def pyint (q : ℚ) : ℤ :=
  if q < 0 then ⌈q⌉ else ⌊q⌋

/-- Python `x % m` on floats: the result has the sign of the divisor, so for
`m > 0` it is `x - m * ⌊x / m⌋`, lying in `[0, m)`. -/
def pymod (x m : ℚ) : ℚ :=
  x - m * ⌊x / m⌋

/-- Python `round(x, 2)`: round to two decimal places, ties to the even
hundredth (Python's banker's rounding), modelled exactly on `ℚ`. -/
def pyRound2 (q : ℚ) : ℚ :=
  let x := q * 100
  let f : ℤ := ⌊x⌋
  let r := x - f
  let n : ℤ :=
    if r < 1/2 then f
    else if r > 1/2 then f + 1
    else if f % 2 = 0 then f else f + 1
  (n : ℚ) / 100

/-- Python `str.title()` restricted to its effect on ASCII words: an
alphabetic character is uppercased when the previous character is not
alphabetic and lowercased otherwise. -/
def titleChars : Bool → List Char → List Char
  | _, [] => []
  | prevAlpha, c :: cs =>
    let c2 := if c.isAlpha then (if prevAlpha then c.toLower else c.toUpper) else c
    c2 :: titleChars c.isAlpha cs

/-- Python `s.title()`. -/
def pyTitle (s : String) : String :=
  ⟨titleChars false s.data⟩

/-- Python `s.split(sep)` on the character list: separators are not kept,
empty fields are kept, and the empty string splits to `[[]]`. -/
def splitOn (sep : Char) : List Char → List (List Char)
  | [] => [[]]
  | c :: rest =>
    let r := splitOn sep rest
    if c = sep then [] :: r
    else
      match r with
      | [] => [[c]]
      | h :: t => (c :: h) :: t

/-- Python `s.split(sep)` for a single-character separator. -/
def pySplit (s : String) (sep : Char) : List String :=
  (splitOn sep s.data).map (fun l => ⟨l⟩)

/-- Value of a nonempty all-digit character list, `none` otherwise. -/
def digitsVal (cs : List Char) : Option Nat :=
  if cs ≠ [] ∧ cs.all (fun c => c.isDigit) then
    some (cs.foldl (fun a c => a * 10 + (c.toNat - 48)) 0)
  else none

/-- Python `int(s)` on a decimal string: surrounding whitespace is stripped,
an optional sign is followed by one or more digits; anything else raises
`ValueError`, modelled as `none`. -/
def pyInt (s : String) : Option Int :=
  let cs := ((s.data.dropWhile Char.isWhitespace).reverse.dropWhile
    Char.isWhitespace).reverse
  match cs with
  | [] => none
  | c :: rest =>
    if c = '+' then (digitsVal rest).map (fun n => (n : Int))
    else if c = '-' then (digitsVal rest).map (fun n => -(n : Int))
    else (digitsVal (c :: rest)).map (fun n => (n : Int))

/-- A `skyfield` `Time` value: `utc` models `ts.utc(year, month, day, hour,
minute)`; `instant` models any other time object such as the result of
`ts.now()` at some request instant. -/
inductive TimeT where
  | utc (year month day hour minute : Int)
  | instant (n : Int)
deriving DecidableEq

/-- The external `skyfield` library, as uninterpreted functions.
`lookup key t` models
`earth.at(t).observe(eph[key]).apparent().ecliptic_latlon()[1].degrees`,
with `none` when the ephemeris lookup raises (unknown key, missing data).
`era t` models `earth_rotation_angle(t.ut1)`, in rotations. -/
structure SkyfieldEnv where
  lookup : String → TimeT → Option ℚ
  era : TimeT → ℚ

/-- `SIGNS` (natal_chart.py lines 19-23). -/
def SIGNS : List String :=
  ["aries", "taurus", "gemini", "cancer",
   "leo", "virgo", "libra", "scorpio",
   "sagittarius", "capricorn", "aquarius", "pisces"]

/-- `PLANETS` (natal_chart.py lines 26-36): planet bodies in Skyfield. -/
def PLANETS : List (String × String) :=
  [("sun", "sun"),
   ("moon", "moon"),
   ("mercury", "mercury barycenter"),
   ("venus", "venus barycenter"),
   ("mars", "mars barycenter"),
   ("jupiter", "jupiter barycenter"),
   ("saturn", "saturn barycenter"),
   ("uranus", "uranus barycenter"),
   ("neptune", "neptune barycenter")]

/-- `ecliptic_longitude_to_sign` (natal_chart.py lines 219-223): convert
ecliptic longitude (0-360) to zodiac sign and degree. -/
def ecliptic_longitude_to_sign (longitude : ℚ) : String × ℚ :=
  let sign_index := pyint (longitude / 30) % 12
  let degree := pymod longitude 30
  (SIGNS.getD (sign_index.toNat) "", degree)

/-- `PLANET_SIGN_READINGS` (natal_chart.py lines 39-180): interpretive
readings for planets in signs, keyed first by body and then by sign. -/
def PLANET_SIGN_READINGS : List (String × List (String × String)) :=
  [("sun",
    [("aries", "Bold, pioneering spirit with natural leadership. You radiate confidence and initiative."),
     ("taurus", "Grounded, sensual nature valuing stability. Your strength comes from patience and determination."),
     ("gemini", "Curious, adaptable mind seeking knowledge. Communication and variety fuel your vitality."),
     ("cancer", "Nurturing soul with deep emotional wisdom. Home and family form your core identity."),
     ("leo", "Radiant creative expression and generous heart. You shine brightest when inspiring others."),
     ("virgo", "Analytical mind with devotion to service. Perfection and improvement drive your purpose."),
     ("libra", "Harmony-seeking diplomat with refined aesthetic. Relationships and balance define you."),
     ("scorpio", "Intense, transformative power and emotional depth. You thrive through regeneration."),
     ("sagittarius", "Adventurous philosopher seeking truth. Freedom and expansion fuel your spirit."),
     ("capricorn", "Ambitious achiever with disciplined drive. You build lasting legacies through hard work."),
     ("aquarius", "Innovative visionary championing humanity. Your uniqueness inspires collective progress."),
     ("pisces", "Compassionate dreamer connected to the divine. Intuition and imagination guide your path.")]),
   ("moon",
    [("aries", "Emotionally impulsive and fiery. You need independence and action to feel secure."),
     ("taurus", "Emotionally steady and comfort-seeking. Security comes from stability and sensory pleasures."),
     ("gemini", "Emotionally curious and changeable. You process feelings through talking and thinking."),
     ("cancer", "Deeply intuitive and nurturing. Your emotional world is rich and protective."),
     ("leo", "Emotionally expressive and warm. You need recognition and appreciation to feel loved."),
     ("virgo", "Emotionally reserved but caring. You show love through acts of service and attention."),
     ("libra", "Emotionally balanced and relationship-focused. Harmony in partnerships is essential."),
     ("scorpio", "Emotionally intense and transformative. You feel everything deeply and completely."),
     ("sagittarius", "Emotionally optimistic and freedom-loving. Adventure and meaning nurture your soul."),
     ("capricorn", "Emotionally controlled and responsible. You find security through achievement."),
     ("aquarius", "Emotionally detached but humanitarian. You need intellectual connection and space."),
     ("pisces", "Emotionally sensitive and empathic. Boundaries blur as you absorb others\x27 feelings.")]),
   ("ascendant",
    [("aries", "You appear bold, direct, and energetic. First impressions show your competitive spirit."),
     ("taurus", "You appear calm, reliable, and sensual. Others see stability and grace in you."),
     ("gemini", "You appear witty, curious, and youthful. Your quick mind makes first impressions."),
     ("cancer", "You appear caring, protective, and intuitive. A nurturing aura surrounds you."),
     ("leo", "You appear confident, dramatic, and warm. Your presence commands attention."),
     ("virgo", "You appear modest, analytical, and helpful. Precision defines your outer self."),
     ("libra", "You appear charming, balanced, and refined. Beauty and diplomacy mark your style."),
     ("scorpio", "You appear intense, mysterious, and magnetic. Others sense your hidden depths."),
     ("sagittarius", "You appear optimistic, adventurous, and honest. Enthusiasm is your calling card."),
     ("capricorn", "You appear serious, ambitious, and mature. Responsibility marks your demeanor."),
     ("aquarius", "You appear unique, progressive, and detached. Originality defines your presence."),
     ("pisces", "You appear dreamy, compassionate, and ethereal. A mystical aura surrounds you.")]),
   ("mercury",
    [("aries", "Quick, direct thinking with assertive communication. Ideas come fast and bold."),
     ("taurus", "Practical, deliberate thinking. You communicate with patience and reliability."),
     ("gemini", "Versatile, curious mind excelling at communication. Ideas flow freely and quickly."),
     ("cancer", "Intuitive thinking colored by emotion. Memory and feeling guide your thoughts."),
     ("leo", "Creative, dramatic communication style. You express ideas with flair and confidence."),
     ("virgo", "Analytical, precise thinking. Detail-oriented communication serves practical goals."),
     ("libra", "Diplomatic, balanced thinking. You weigh all sides before expressing views."),
     ("scorpio", "Penetrating, investigative mind. Your thinking goes deep beneath the surface."),
     ("sagittarius", "Expansive, philosophical thinking. Big ideas and truth-seeking guide your mind."),
     ("capricorn", "Structured, strategic thinking. Communication serves ambitious, practical goals."),
     ("aquarius", "Innovative, unconventional thinking. Original ideas and progressive views define you."),
     ("pisces", "Imaginative, intuitive thinking. Poetry and symbolism color your communication.")]),
   ("venus",
    [("aries", "Passionate, impulsive love nature. You pursue romance with directness and fire."),
     ("taurus", "Sensual, loyal love nature. You value stability, beauty, and physical pleasure."),
     ("gemini", "Playful, intellectual love nature. Mental connection and variety attract you."),
     ("cancer", "Nurturing, protective love nature. Emotional security is paramount in relationships."),
     ("leo", "Generous, dramatic love nature. You love with warmth and need appreciation."),
     ("virgo", "Devoted, practical love nature. You show love through service and attention."),
     ("libra", "Harmonious, romantic love nature. Partnership and beauty are essential to you."),
     ("scorpio", "Intense, passionate love nature. Deep emotional bonds and loyalty define love."),
     ("sagittarius", "Adventurous, freedom-loving in love. Growth and exploration attract you."),
     ("capricorn", "Committed, ambitious love nature. You value stability and long-term goals."),
     ("aquarius", "Unconventional, friendship-based love. Intellectual connection and freedom matter."),
     ("pisces", "Romantic, compassionate love nature. You love unconditionally and spiritually.")]),
   ("mars",
    [("aries", "Powerful, direct energy and drive. You act decisively with natural courage."),
     ("taurus", "Steady, persistent energy. You work slowly but with unstoppable determination."),
     ("gemini", "Versatile, mental energy. You act through communication and quick thinking."),
     ("cancer", "Protective, emotional drive. You fight for home, family, and emotional security."),
     ("leo", "Creative, confident energy. You act with pride and dramatic flair."),
     ("virgo", "Precise, service-oriented drive. You channel energy into perfection and help."),
     ("libra", "Diplomatic, partnership-focused action. You prefer cooperation over conflict."),
     ("scorpio", "Intense, strategic power. You act with determination and emotional depth."),
     ("sagittarius", "Adventurous, enthusiastic energy. You act on beliefs and seek expansion."),
     ("capricorn", "Disciplined, ambitious drive. You work strategically toward long-term goals."),
     ("aquarius", "Progressive, unconventional action. You fight for causes and innovation."),
     ("pisces", "Intuitive, compassionate drive. You act on inspiration and spiritual guidance.")]),
   ("jupiter",
    [("aries", "Growth through initiative and leadership. Fortune favors your bold ventures."),
     ("taurus", "Growth through resources and stability. Abundance flows through patience."),
     ("gemini", "Growth through learning and communication. Knowledge brings opportunities."),
     ("cancer", "Growth through nurturing and intuition. Family and home bring blessings."),
     ("leo", "Growth through creativity and self-expression. Generosity attracts abundance."),
     ("virgo", "Growth through service and improvement. Details and health bring rewards."),
     ("libra", "Growth through relationships and harmony. Partnerships bring opportunities."),
     ("scorpio", "Growth through transformation and depth. Intensity brings powerful rewards."),
     ("sagittarius", "Natural philosopher and seeker. Travel, wisdom, and truth bring abundance."),
     ("capricorn", "Growth through discipline and achievement. Success comes through hard work."),
     ("aquarius", "Growth through innovation and humanity. Unusual paths bring opportunities."),
     ("pisces", "Growth through spirituality and compassion. Faith and intuition guide fortune.")]),
   ("saturn",
    [("aries", "Lessons in patience and self-assertion. Learn to balance impulse with discipline."),
     ("taurus", "Lessons in material security. Build lasting value through steady effort."),
     ("gemini", "Lessons in focused communication. Discipline your mind and words."),
     ("cancer", "Lessons in emotional boundaries. Learn to balance nurturing with self-protection."),
     ("leo", "Lessons in humble self-expression. True confidence comes from inner authority."),
     ("virgo", "Lessons in perfectionism and service. Balance criticism with acceptance."),
     ("libra", "Lessons in relationships and fairness. Commitment brings growth through challenges."),
     ("scorpio", "Lessons in power and control. Transform shadow into wisdom through time."),
     ("sagittarius", "Lessons in belief and expansion. Ground your philosophy in reality."),
     ("capricorn", "Native strength in ambition and structure. Build your legacy with integrity."),
     ("aquarius", "Lessons in individuality and community. Balance uniqueness with responsibility."),
     ("pisces", "Lessons in boundaries and spirituality. Ground your dreams in practical reality.")]),
   ("uranus",
    [("aries", "Revolutionary pioneer energy. You innovate through bold, independent action."),
     ("taurus", "Revolutionary approach to resources. You transform values and material security."),
     ("gemini", "Revolutionary thinking and ideas. You innovate through communication."),
     ("cancer", "Revolutionary home and family concepts. You transform emotional patterns."),
     ("leo", "Revolutionary creative expression. You innovate through unique self-expression."),
     ("virgo", "Revolutionary service and health. You transform through innovative methods."),
     ("libra", "Revolutionary relationships. You transform partnership dynamics."),
     ("scorpio", "Revolutionary transformation. You innovate through deep psychological insight."),
     ("sagittarius", "Revolutionary philosophy. You transform beliefs and expand consciousness."),
     ("capricorn", "Revolutionary structures. You transform institutions and traditions."),
     ("aquarius", "Native revolutionary energy. You are the change-maker and visionary."),
     ("pisces", "Revolutionary spirituality. You transform through mystical innovation.")]),
   ("neptune",
    [("aries", "Spiritual warrior energy. Your idealism drives inspired action."),
     ("taurus", "Spiritual approach to beauty and nature. Art and music elevate your soul."),
     ("gemini", "Spiritual communication and ideas. You channel inspiration through words."),
     ("cancer", "Spiritual nurturing and empathy. You feel the collective emotional current."),
     ("leo", "Spiritual creativity and performance. Art becomes a divine channel."),
     ("virgo", "Spiritual service and healing. You serve through compassionate attention."),
     ("libra", "Spiritual love and beauty. Relationships become sacred unions."),
     ("scorpio", "Spiritual depth and mysticism. You touch hidden realms of consciousness."),
     ("sagittarius", "Spiritual seeking and vision. Faith and philosophy elevate your journey."),
     ("capricorn", "Spiritual ambition and structure. You build bridges between worlds."),
     ("aquarius", "Spiritual humanity and vision. Your ideals serve collective awakening."),
     ("pisces", "Native spiritual consciousness. You are naturally connected to the divine.")])]

/-- The generic templated fallback sentence of `get_reading`
(natal_chart.py line 216). -/
def genericReading (planet sign : String) : String :=
  "Your " ++ pyTitle planet ++ " in " ++ pyTitle sign ++
    " brings unique energy to your chart."

/-- `get_reading` (natal_chart.py lines 213-216): get interpretive reading
for a planet in a sign, with the templated sentence as default. -/
def get_reading (planet sign : String) : String :=
  let readings :=
    ((PLANET_SIGN_READINGS.find? (fun e => e.1 == planet)).map
      (fun e => e.2)).getD []
  ((readings.find? (fun e => e.1 == sign)).map (fun e => e.2)).getD
    (genericReading planet sign)

/-- `PlanetPositionResponse` (natal_chart.py lines 190-195). -/
structure PlanetPositionResponse where
  planet : String
  sign : String
  degree : ℚ
  retrograde : Bool := false
  reading : String := ""
deriving DecidableEq

/-- `HouseResponse` (natal_chart.py lines 198-201). -/
structure HouseResponse where
  house : ℤ
  sign : String
  degree : ℚ
deriving DecidableEq

/-- `NatalChartRequest` (natal_chart.py lines 183-187). -/
structure NatalChartRequest where
  birth_date : String
  birth_time : String
  latitude : ℚ
  longitude : ℚ

/-- `NatalChartResponse` (natal_chart.py lines 204-210). -/
structure NatalChartResponse where
  sun : PlanetPositionResponse
  moon : PlanetPositionResponse
  rising : PlanetPositionResponse
  planets : List PlanetPositionResponse
  houses : List HouseResponse
  summary : String := ""
deriving DecidableEq

/-- The Skyfield body key resolution inside `calculate_planet_position`
(natal_chart.py lines 229-234): `sun` and `moon` are looked up directly,
other names through `PLANETS.get(planet_name, planet_name)`. -/
def bodyKey (planet_name : String) : String :=
  if planet_name = "sun" then "sun"
  else if planet_name = "moon" then "moon"
  else ((PLANETS.find? (fun e => e.1 == planet_name)).map
    (fun e => e.2)).getD planet_name

/-- The success branch of `calculate_planet_position` (natal_chart.py lines
236-252), given the raw longitude returned by the ephemeris observation. -/
def successResponse (planet_name : String) (lon0 : ℚ) : PlanetPositionResponse :=
  let longitude := if lon0 < 0 then lon0 + 360 else lon0
  let sd := ecliptic_longitude_to_sign longitude
  { planet := planet_name,
    sign := sd.1,
    degree := pyRound2 sd.2,
    retrograde := false,
    reading := get_reading planet_name sd.1 }

/-- The `except` branch of `calculate_planet_position` (natal_chart.py lines
253-261): default values used when the ephemeris lookup raises. -/
def fallbackResponse (planet_name : String) : PlanetPositionResponse :=
  { planet := planet_name,
    sign := "aries",
    degree := 0,
    retrograde := false,
    reading := "" }

/-- `calculate_planet_position` (natal_chart.py lines 226-261): calculate a
planet's ecliptic longitude; any exception from the ephemeris lookup
(modelled by `env.lookup _ _ = none`) yields the default values. -/
def calculate_planet_position (env : SkyfieldEnv) (planet_name : String)
    (t : TimeT) : PlanetPositionResponse :=
  match env.lookup (bodyKey planet_name) t with
  | some lon0 => successResponse planet_name lon0
  | none => fallbackResponse planet_name

/-- `calculate_rising_sign` (natal_chart.py lines 264-279): calculate the
Ascendant from the Earth rotation angle and the geographic longitude; the
`latitude` parameter is accepted but never read. -/
def calculate_rising_sign (env : SkyfieldEnv) (t : TimeT)
    (latitude longitude : ℚ) : PlanetPositionResponse :=
  let era := env.era t
  let lst_degrees := pymod (era * 360 + longitude) 360
  let sd := ecliptic_longitude_to_sign lst_degrees
  { planet := "ascendant",
    sign := sd.1,
    degree := pyRound2 sd.2,
    retrograde := false,
    reading := get_reading "ascendant" sd.1 }

/-- `calculate_houses` (natal_chart.py lines 282-299): whole-sign house
cusps from the ascendant longitude. -/
def calculate_houses (ascendant_longitude : ℚ) : List HouseResponse :=
  let asc_sign_index := pyint (ascendant_longitude / 30) % 12
  (List.range 12).map (fun i =>
    { house := (i : ℤ) + 1,
      sign := SIGNS.getD (((asc_sign_index + i) % 12).toNat) "",
      degree := 0 })

/-- `generate_summary` (natal_chart.py lines 302-312). -/
def generate_summary (sun moon rising : PlanetPositionResponse) : String :=
  let sun_sign := pyTitle sun.sign
  let moon_sign := pyTitle moon.sign
  let rising_sign := pyTitle rising.sign
  "As a " ++ sun_sign ++ " Sun with a " ++ moon_sign ++ " Moon and " ++
    rising_sign ++ " Rising, you combine the core identity of " ++ sun_sign ++
    " with the emotional depth of " ++ moon_sign ++
    ". The world sees you through your " ++ rising_sign ++
    " Ascendant, shaping first impressions and life approach."

/-- The `try` block of `calculate_natal_chart` (natal_chart.py lines
318-328): split the date on dashes and the time on colons, convert the
pieces with `int(...)` (minutes default to 0 when absent), and build
`ts.utc(year, month, day, hour, minute)`; `none` models any exception
(missing parts or failed `int` conversion). -/
def parseBirthTime (birth_date birth_time : String) : Option TimeT :=
  match pySplit birth_date '-', pySplit birth_time ':' with
  | y :: mo :: d :: _, h :: rest => do
    let year ← pyInt y
    let month ← pyInt mo
    let day ← pyInt d
    let hour ← pyInt h
    let minute ←
      match rest with
      | mi :: _ => pyInt mi
      | [] => some (0 : ℤ)
    some (TimeT.utc year month day hour minute)
  | _, _ => none

/-- Lines 318-330 of natal_chart.py: the parsed birth time, or `ts.now()`
(the `now` argument) when parsing raises. -/
def resolveTime (req : NatalChartRequest) (now : TimeT) : TimeT :=
  (parseBirthTime req.birth_date req.birth_time).getD now

/-- The seven bodies of the `planets` list (natal_chart.py line 339). -/
def planetNames : List String :=
  ["mercury", "venus", "mars", "jupiter", "saturn", "uranus", "neptune"]

/-- `calculate_natal_chart` (natal_chart.py lines 315-357): the chart
endpoint body. `now` is the value `ts.now()` would return at the request
instant. -/
def calculate_natal_chart (env : SkyfieldEnv) (req : NatalChartRequest)
    (now : TimeT) : NatalChartResponse :=
  let t := resolveTime req now
  let sun := calculate_planet_position env "sun" t
  let moon := calculate_planet_position env "moon" t
  let rising := calculate_rising_sign env t req.latitude req.longitude
  let planets := planetNames.map (fun name => calculate_planet_position env name t)
  let era := env.era t
  let asc_longitude := pymod (era * 360 + req.longitude) 360
  let houses := calculate_houses asc_longitude
  let summary := generate_summary sun moon rising
  { sun := sun, moon := moon, rising := rising, planets := planets,
    houses := houses, summary := summary }

/-- The nine bodies whose positions go through `calculate_planet_position`
in a chart request: `sun`, `moon` (lines 334-335) and the seven planets
(line 339). -/
def natalBodies : List String :=
  "sun" :: "moon" :: planetNames

/-- The body-position entries of a chart response, in computation order:
`sun`, `moon`, then the seven planets. -/
def bodyEntries (c : NatalChartResponse) : List PlanetPositionResponse :=
  [c.sun, c.moon] ++ c.planets

/-- All ten position entries of a chart response, the Ascendant included. -/
def allEntries (c : NatalChartResponse) : List PlanetPositionResponse :=
  [c.sun, c.moon, c.rising] ++ c.planets

/-- The entry of a chart response reporting the given body name. -/
def findBody (c : NatalChartResponse) (name : String) :
    Option PlanetPositionResponse :=
  (bodyEntries c).find? (fun p => p.planet == name)

/-- A request whose birth data parses: 2000-01-06 00:00 at latitude 0,
longitude 0. -/
def reqBasic : NatalChartRequest :=
  { birth_date := "2000-01-06", birth_time := "00:00",
    latitude := 0, longitude := 0 }

/-- A request with an unparsable birth date. -/
def reqMalformed : NatalChartRequest :=
  { birth_date := "not-a-date", birth_time := "12:00",
    latitude := 0, longitude := 0 }

/-- A concrete environment where the Mars ephemeris lookup raises and every
other lookup reports longitude 45. -/
def envMarsDown : SkyfieldEnv :=
  { lookup := fun key _ =>
      if key = "mars barycenter" then none else some 45,
    era := fun _ => 0 }

/-- A concrete environment where every body sits at longitude 29.996, just
under the upper edge of Aries. -/
def envBoundary : SkyfieldEnv :=
  { lookup := fun _ _ => some (29996/1000),
    era := fun _ => 0 }

theorem pyint_of_nonneg {q : ℚ} (h : 0 ≤ q) : pyint q = ⌊q⌋ := by
  simp [pyint, not_lt.mpr h]

theorem pymod_nonneg (x : ℚ) {m : ℚ} (hm : 0 < m) : 0 ≤ pymod x m := by
  have h1 : (⌊x / m⌋ : ℚ) ≤ x / m := Int.floor_le _
  have h2 : m * (⌊x / m⌋ : ℚ) ≤ m * (x / m) :=
    mul_le_mul_of_nonneg_left h1 hm.le
  have h3 : m * (x / m) = x := by
    field_simp
  simp only [pymod]
  linarith [h2, h3.le]

theorem pymod_lt (x : ℚ) {m : ℚ} (hm : 0 < m) : pymod x m < m := by
  have h1 : x / m < (⌊x / m⌋ : ℚ) + 1 := Int.lt_floor_add_one _
  have h2 : m * (x / m) < m * ((⌊x / m⌋ : ℚ) + 1) :=
    (mul_lt_mul_left hm).mpr h1
  have h3 : m * (x / m) = x := by
    field_simp
  simp only [pymod]
  nlinarith [h2, h3]

theorem intOver100_bounds {n : ℤ} (h0 : 0 ≤ n) (h1 : n ≤ 3000) :
    0 ≤ (n:ℚ) / 100 ∧ (n:ℚ) / 100 ≤ 30 := by
  constructor
  · exact div_nonneg (by exact_mod_cast h0) (by norm_num)
  · rw [div_le_iff₀ (by norm_num : (0:ℚ) < 100)]
    have : (n:ℚ) ≤ 3000 := by exact_mod_cast h1
    linarith

theorem pyRound2_bounds {q : ℚ} (h0 : 0 ≤ q) (h1 : q < 30) :
    0 ≤ pyRound2 q ∧ pyRound2 q ≤ 30 := by
  have hx0 : (0:ℚ) ≤ q * 100 := by nlinarith
  have hx1 : q * 100 < 3000 := by nlinarith
  have hf0 : 0 ≤ ⌊q * 100⌋ := Int.floor_nonneg.mpr hx0
  have hf1 : ⌊q * 100⌋ ≤ 2999 := by
    have h2 : (⌊q * 100⌋ : ℚ) < 3000 := lt_of_le_of_lt (Int.floor_le _) hx1
    exact_mod_cast Int.lt_add_one_iff.mp (by exact_mod_cast h2)
  simp only [pyRound2]
  split_ifs <;> exact intOver100_bounds (by omega) (by omega)

theorem eclipticToSign_snd (L : ℚ) :
    (ecliptic_longitude_to_sign L).2 = pymod L 30 := rfl

/-- C1: for every longitude in `[0, 360)` the sign mapper returns
`sign_index = ⌊L/30⌋ % 12` (Aries at index 0 through Pisces at index 11)
and `degree_in_sign = L mod 30` with `0 ≤ degree_in_sign < 30`; in
particular `L = 0` maps to Aries at degree 0 and `L = 359.99` maps to
Pisces at degree 29.99. -/
theorem sign_mapper_follows_spec (L : ℚ) (h0 : 0 ≤ L) (h1 : L < 360) :
    (ecliptic_longitude_to_sign L).1 = SIGNS.getD ((⌊L / 30⌋ % 12).toNat) "" ∧
    (ecliptic_longitude_to_sign L).2 = L - 30 * ⌊L / 30⌋ ∧
    0 ≤ (ecliptic_longitude_to_sign L).2 ∧
    (ecliptic_longitude_to_sign L).2 < 30 ∧
    ecliptic_longitude_to_sign 0 = ("aries", 0) ∧
    ecliptic_longitude_to_sign (35999/100) = ("pisces", 2999/100) := by
  have hL30 : (0:ℚ) ≤ L / 30 := by positivity
  refine ⟨?_, rfl, pymod_nonneg L (by norm_num), pymod_lt L (by norm_num),
    ?_, ?_⟩
  · simp [ecliptic_longitude_to_sign, pyint_of_nonneg hL30]
  · norm_num [ecliptic_longitude_to_sign, pyint, pymod, SIGNS]
  · norm_num [ecliptic_longitude_to_sign, pyint, pymod, SIGNS]
    rfl

theorem sign_mapper_follows_spec_witness :
    ((0:ℚ) ≤ 95 ∧ (95:ℚ) < 360) ∧
    ((ecliptic_longitude_to_sign 95).1 =
        SIGNS.getD ((⌊(95:ℚ) / 30⌋ % 12).toNat) "" ∧
      (ecliptic_longitude_to_sign 95).2 = 95 - 30 * ⌊(95:ℚ) / 30⌋ ∧
      0 ≤ (ecliptic_longitude_to_sign 95).2 ∧
      (ecliptic_longitude_to_sign 95).2 < 30 ∧
      ecliptic_longitude_to_sign 0 = ("aries", 0) ∧
      ecliptic_longitude_to_sign (35999/100) = ("pisces", 2999/100)) :=
  ⟨⟨by norm_num, by norm_num⟩,
    sign_mapper_follows_spec 95 (by norm_num) (by norm_num)⟩

/-- C6 counterexample: the sign mapping is not 360-periodic on negative
longitudes. `-5` maps to (aries, 25) because `int(·)` truncates toward zero
while `%` follows the divisor's sign, but `-5 + 360` maps to (pisces, 25). -/
theorem sign_mapper_not_periodic_at_negative :
    ecliptic_longitude_to_sign (-5 + 360 * 1) ≠ ecliptic_longitude_to_sign (-5) := by
  have e1 : ecliptic_longitude_to_sign (-5 + 360 * 1) = ("pisces", 25) := by
    norm_num [ecliptic_longitude_to_sign, pyint, pymod, SIGNS]
    rfl
  have e2 : ecliptic_longitude_to_sign (-5) = ("aries", 25) := by
    have hneg : ((-5:ℚ) / 30) < 0 := by norm_num
    have hc : ⌈(-5:ℚ) / 30⌉ = 0 := by
      rw [Int.ceil_eq_iff]
      norm_num
    have hf : ⌊(-5:ℚ) / 30⌋ = -1 := by
      rw [Int.floor_eq_iff]
      norm_num
    simp only [ecliptic_longitude_to_sign, pyint, pymod, if_pos hneg, hc, hf]
    norm_num [SIGNS]
  rw [e1, e2]
  simp

/-- C6 amended: the sign/degree mapping is 360-periodic on nonnegative
longitudes: for `L ≥ 0` and integer `k` with `L + 360k ≥ 0`,
`ecliptic_longitude_to_sign (L + 360k) = ecliptic_longitude_to_sign L`.
For negative longitudes the equality fails, since `int(·)` truncates toward
zero there while `%` still floors. -/
theorem sign_mapper_periodic_on_nonneg (L : ℚ) (k : ℤ) (h0 : 0 ≤ L)
    (h1 : 0 ≤ L + 360 * k) :
    ecliptic_longitude_to_sign (L + 360 * k) = ecliptic_longitude_to_sign L := by
  have h30 : (0:ℚ) ≤ L / 30 := by positivity
  have h30' : (0:ℚ) ≤ (L + 360 * k) / 30 := by
    apply div_nonneg h1
    norm_num
  have hdiv : (L + 360 * k) / 30 = L / 30 + (12 * k : ℤ) := by
    push_cast
    ring
  have hfloor : ⌊(L + 360 * k) / 30⌋ = ⌊L / 30⌋ + 12 * k := by
    rw [hdiv, Int.floor_add_int]
  have hidx : (⌊L / 30⌋ + 12 * k) % 12 = ⌊L / 30⌋ % 12 := by
    omega
  simp only [ecliptic_longitude_to_sign, pymod, pyint_of_nonneg h30,
    pyint_of_nonneg h30', hfloor, hidx, Prod.mk.injEq]
  refine ⟨trivial, ?_⟩
  push_cast
  ring

theorem sign_mapper_periodic_on_nonneg_witness :
    ((0:ℚ) ≤ 5 ∧ (0:ℚ) ≤ 5 + 360 * (2:ℤ)) ∧
    ecliptic_longitude_to_sign (5 + 360 * (2:ℤ)) = ecliptic_longitude_to_sign 5 :=
  ⟨⟨by norm_num, by norm_num⟩,
    sign_mapper_periodic_on_nonneg 5 2 (by norm_num) (by norm_num)⟩

/-- C4: for every ascendant longitude, `calculate_houses` returns exactly 12
cusps; with `A` the Ascendant's sign index, house `N` (1-12) carries sign
index `(A + N - 1) % 12` — in particular house 1's sign is the Ascendant's
own sign as computed by the sign mapper — and every cusp degree is 0. -/
theorem houses_whole_sign (L : ℚ) :
    (calculate_houses L).length = 12 ∧
    (∀ N : ℕ, 1 ≤ N → N ≤ 12 →
      (calculate_houses L).get? (N - 1) =
        some { house := (N : ℤ),
               sign := SIGNS.getD
                 (((pyint (L / 30) % 12 + ((N : ℤ) - 1)) % 12).toNat) "",
               degree := 0 }) ∧
    ((calculate_houses L).get? 0).map (fun h => h.sign) =
      some (ecliptic_longitude_to_sign L).1 := by
  refine ⟨rfl, ?_, ?_⟩
  · intro N h1 h12
    interval_cases N <;>
      simp [calculate_houses, List.get?]
  · have h0 : ((calculate_houses L).get? 0) =
        some { house := 1,
               sign := SIGNS.getD (((pyint (L / 30) % 12 + 0) % 12).toNat) "",
               degree := 0 } := by
      simp [calculate_houses, List.get?]
    rw [h0]
    have hmm : (pyint (L / 30) % 12 + 0) % 12 = pyint (L / 30) % 12 := by
      omega
    simp [hmm, ecliptic_longitude_to_sign]

theorem houses_whole_sign_witness :
    (calculate_houses 95).length = 12 ∧
    ((1:ℕ) ≤ 4 ∧ (4:ℕ) ≤ 12) ∧
    (calculate_houses 95).get? (4 - 1) =
      some { house := ((4:ℕ) : ℤ),
             sign := SIGNS.getD
               (((pyint ((95:ℚ) / 30) % 12 + (((4:ℕ) : ℤ) - 1)) % 12).toNat) "",
             degree := 0 } ∧
    ((calculate_houses 95).get? 0).map (fun h => h.sign) =
      some (ecliptic_longitude_to_sign 95).1 :=
  ⟨(houses_whole_sign 95).1, ⟨by norm_num, by norm_num⟩,
    (houses_whole_sign 95).2.1 4 (by norm_num) (by norm_num),
    (houses_whole_sign 95).2.2⟩

/-- C5: the Ascendant's ecliptic longitude is
`(earth_rotation_angle(t) * 360 + geographic_longitude) % 360`, normalized
into `[0, 360)`, and `calculate_rising_sign` ignores its latitude argument
entirely. -/
theorem rising_sign_formula_ignores_latitude (env : SkyfieldEnv) (t : TimeT)
    (lat1 lat2 lon : ℚ) :
    calculate_rising_sign env t lat1 lon = calculate_rising_sign env t lat2 lon ∧
    0 ≤ pymod (env.era t * 360 + lon) 360 ∧
    pymod (env.era t * 360 + lon) 360 < 360 ∧
    (calculate_rising_sign env t lat1 lon).sign =
      (ecliptic_longitude_to_sign (pymod (env.era t * 360 + lon) 360)).1 ∧
    (calculate_rising_sign env t lat1 lon).degree =
      pyRound2 ((ecliptic_longitude_to_sign (pymod (env.era t * 360 + lon) 360)).2) :=
  ⟨rfl, pymod_nonneg _ (by norm_num), pymod_lt _ (by norm_num), rfl, rfl⟩

theorem calculate_planet_position_planet (env : SkyfieldEnv) (n : String)
    (t : TimeT) : (calculate_planet_position env n t).planet = n := by
  unfold calculate_planet_position
  cases env.lookup (bodyKey n) t <;> rfl

theorem calculate_planet_position_of_none {env : SkyfieldEnv} {n : String}
    {t : TimeT} (h : env.lookup (bodyKey n) t = none) :
    calculate_planet_position env n t = fallbackResponse n := by
  unfold calculate_planet_position
  rw [h]

theorem calculate_planet_position_of_some {env : SkyfieldEnv} {n : String}
    {t : TimeT} {L : ℚ} (h : env.lookup (bodyKey n) t = some L) :
    calculate_planet_position env n t = successResponse n L := by
  unfold calculate_planet_position
  rw [h]

theorem find?_planet_map (f : String → PlanetPositionResponse)
    (hf : ∀ n, (f n).planet = n) :
    ∀ (names : List String) (b : String), b ∈ names →
      (names.map f).find? (fun p => p.planet == b) = some (f b) := by
  intro names
  induction names with
  | nil =>
    intro b hb
    simp at hb
  | cons n ns ih =>
    intro b hb
    by_cases hnb : n = b
    · subst hnb
      simp [List.find?, hf]
    · have hne : ((f n).planet == b) = false := by
        simp [hf, hnb]
      have hb' : b ∈ ns := by
        rcases List.mem_cons.mp hb with h | h
        · exact absurd h.symm hnb
        · exact h
      simp only [List.map_cons, List.find?, hne]
      exact ih b hb'

theorem bodyEntries_chart (env : SkyfieldEnv) (req : NatalChartRequest)
    (now : TimeT) :
    bodyEntries (calculate_natal_chart env req now) =
      natalBodies.map
        (fun n => calculate_planet_position env n (resolveTime req now)) := rfl

theorem findBody_chart (env : SkyfieldEnv) (req : NatalChartRequest)
    (now : TimeT) (b : String) (hb : b ∈ natalBodies) :
    findBody (calculate_natal_chart env req now) b =
      some (calculate_planet_position env b (resolveTime req now)) := by
  rw [findBody, bodyEntries_chart]
  exact find?_planet_map _ (fun n => calculate_planet_position_planet env n _)
    natalBodies b hb

/-- C2: when the ephemeris lookup for one body fails, that body's entry in
the chart is the fallback (sign `aries`, degree 0, empty reading), every
other body whose lookup succeeds is reported with its normally computed
position, and the chart still carries its full 7-planet list and 12
houses. -/
theorem single_body_failure_degrades_only_that_body
    (env : SkyfieldEnv) (req : NatalChartRequest) (now : TimeT) (b : String)
    (hb : b ∈ natalBodies)
    (hfail : env.lookup (bodyKey b) (resolveTime req now) = none) :
    findBody (calculate_natal_chart env req now) b =
      some (fallbackResponse b) ∧
    (∀ b', b' ∈ natalBodies → b' ≠ b → ∀ L : ℚ,
      env.lookup (bodyKey b') (resolveTime req now) = some L →
      findBody (calculate_natal_chart env req now) b' =
        some (successResponse b' L)) ∧
    (calculate_natal_chart env req now).planets.length = 7 ∧
    (calculate_natal_chart env req now).houses.length = 12 := by
  refine ⟨?_, ?_, rfl, rfl⟩
  · rw [findBody_chart env req now b hb, calculate_planet_position_of_none hfail]
  · intro b' hb' _ L hL
    rw [findBody_chart env req now b' hb', calculate_planet_position_of_some hL]

/-- C3: when the birth date/time fails to parse, the endpoint raises
nothing: it resolves the time to `ts.now()` and still returns a complete
chart with 10 body positions (Sun, Moon, Ascendant and 7 planets) and 12
house cusps, with the Sun computed at `now`. -/
theorem malformed_birth_data_falls_back_to_now
    (env : SkyfieldEnv) (req : NatalChartRequest) (now : TimeT)
    (hparse : parseBirthTime req.birth_date req.birth_time = none) :
    resolveTime req now = now ∧
    (allEntries (calculate_natal_chart env req now)).length = 10 ∧
    (calculate_natal_chart env req now).houses.length = 12 ∧
    (calculate_natal_chart env req now).sun =
      calculate_planet_position env "sun" now := by
  have h1 : resolveTime req now = now := by
    simp [resolveTime, hparse]
  refine ⟨h1, rfl, rfl, ?_⟩
  show calculate_planet_position env "sun" (resolveTime req now) = _
  rw [h1]

/-- C8: the chart is a deterministic function of the request and the
ephemeris: when the birth date/time parses, the result is bit-identical
across computations and in particular independent of the time of request
(`ts.now()`), which is only consulted on the malformed-input fallback. -/
theorem chart_deterministic_and_request_time_independent
    (env : SkyfieldEnv) (req : NatalChartRequest) (now1 now2 : TimeT)
    (t0 : TimeT)
    (hparse : parseBirthTime req.birth_date req.birth_time = some t0) :
    calculate_natal_chart env req now1 = calculate_natal_chart env req now2 := by
  have h1 : resolveTime req now1 = t0 := by
    simp [resolveTime, hparse]
  have h2 : resolveTime req now2 = t0 := by
    simp [resolveTime, hparse]
  simp only [calculate_natal_chart, h1, h2]

theorem calculate_planet_position_retrograde (env : SkyfieldEnv) (n : String)
    (t : TimeT) : (calculate_planet_position env n t).retrograde = false := by
  unfold calculate_planet_position
  cases env.lookup (bodyKey n) t <;> rfl

theorem calculate_planet_position_degree_bounds (env : SkyfieldEnv)
    (n : String) (t : TimeT) :
    0 ≤ (calculate_planet_position env n t).degree ∧
    (calculate_planet_position env n t).degree ≤ 30 := by
  unfold calculate_planet_position
  cases env.lookup (bodyKey n) t with
  | none =>
    simp [fallbackResponse]
  | some L =>
    simp only [successResponse, eclipticToSign_snd]
    exact pyRound2_bounds (pymod_nonneg _ (by norm_num))
      (pymod_lt _ (by norm_num))

theorem calculate_rising_sign_degree_bounds (env : SkyfieldEnv) (t : TimeT)
    (lat lon : ℚ) :
    0 ≤ (calculate_rising_sign env t lat lon).degree ∧
    (calculate_rising_sign env t lat lon).degree ≤ 30 := by
  simp only [calculate_rising_sign, eclipticToSign_snd]
  exact pyRound2_bounds (pymod_nonneg _ (by norm_num))
    (pymod_lt _ (by norm_num))

theorem allEntries_chart (env : SkyfieldEnv) (req : NatalChartRequest)
    (now : TimeT) :
    allEntries (calculate_natal_chart env req now) =
      calculate_planet_position env "sun" (resolveTime req now) ::
      calculate_planet_position env "moon" (resolveTime req now) ::
      calculate_rising_sign env (resolveTime req now) req.latitude
        req.longitude ::
      planetNames.map
        (fun n => calculate_planet_position env n (resolveTime req now)) := rfl

/-- C7 amended: in every returned chart, every body position and the
Ascendant carry a degree in the closed interval `[0, 30]`: the unrounded
`degree_in_sign` lies in `[0, 30)`, but rounding to 2 decimal places can
report exactly 30 when the longitude's fractional part is at least
29.995. -/
theorem chart_degrees_in_closed_interval (env : SkyfieldEnv)
    (req : NatalChartRequest) (now : TimeT) :
    ∀ p ∈ allEntries (calculate_natal_chart env req now),
      0 ≤ p.degree ∧ p.degree ≤ 30 := by
  intro p hp
  rw [allEntries_chart] at hp
  rcases List.mem_cons.mp hp with rfl | hp
  · exact calculate_planet_position_degree_bounds env "sun" _
  rcases List.mem_cons.mp hp with rfl | hp
  · exact calculate_planet_position_degree_bounds env "moon" _
  rcases List.mem_cons.mp hp with rfl | hp
  · exact calculate_rising_sign_degree_bounds env _ req.latitude req.longitude
  rcases List.mem_map.mp hp with ⟨n, _, rfl⟩
  exact calculate_planet_position_degree_bounds env n _

/-- C9: every position entry of every returned chart — Sun, Moon, the seven
planets, and the Ascendant — carries `retrograde = false`, in the success
branch as well as in the fallback branch. -/
theorem retrograde_always_false (env : SkyfieldEnv)
    (req : NatalChartRequest) (now : TimeT) :
    ∀ p ∈ allEntries (calculate_natal_chart env req now),
      p.retrograde = false := by
  intro p hp
  rw [allEntries_chart] at hp
  rcases List.mem_cons.mp hp with rfl | hp
  · exact calculate_planet_position_retrograde env "sun" _
  rcases List.mem_cons.mp hp with rfl | hp
  · exact calculate_planet_position_retrograde env "moon" _
  rcases List.mem_cons.mp hp with rfl | hp
  · rfl
  rcases List.mem_map.mp hp with ⟨n, _, rfl⟩
  exact calculate_planet_position_retrograde env n _

/-- C10: when a body's ephemeris lookup fails, the fallback entry's reading
is the empty string — not the stored Aries interpretation for that body and
not the generic templated sentence, both of which are nonempty. -/
theorem failed_body_reading_is_empty (env : SkyfieldEnv) (name : String)
    (t : TimeT) (hmem : name ∈ natalBodies)
    (hfail : env.lookup (bodyKey name) t = none) :
    (calculate_planet_position env name t).reading = "" ∧
    (calculate_planet_position env name t).reading ≠ get_reading name "aries" ∧
    (calculate_planet_position env name t).reading ≠ genericReading name "aries" := by
  have hempty : (calculate_planet_position env name t).reading = "" := by
    rw [calculate_planet_position_of_none hfail]
    rfl
  refine ⟨hempty, ?_, ?_⟩ <;>
    rw [hempty] <;>
    · simp only [natalBodies, planetNames, List.mem_cons,
        List.not_mem_nil, or_false] at hmem
      rcases hmem with rfl | rfl | rfl | rfl | rfl | rfl | rfl | rfl | rfl <;>
        decide

/-- C7 counterexample: with every body at longitude 29.996 the returned
Sun position carries `degree = 30.0` — `round(29.996, 2) = 30.0` — so the
reported degree_in_sign is not in the half-open interval `[0, 30)`. -/
theorem rounded_degree_reaches_thirty :
    (calculate_natal_chart envBoundary reqBasic (TimeT.instant 0)).sun.degree
      = 30 ∧
    ¬ ((calculate_natal_chart envBoundary reqBasic
        (TimeT.instant 0)).sun.degree < 30) := by
  have hlook : envBoundary.lookup (bodyKey "sun")
      (resolveTime reqBasic (TimeT.instant 0)) = some (29996/1000) := rfl
  have hsun : (calculate_natal_chart envBoundary reqBasic
      (TimeT.instant 0)).sun = successResponse "sun" (29996/1000) := by
    show calculate_planet_position envBoundary "sun"
      (resolveTime reqBasic (TimeT.instant 0)) = _
    exact calculate_planet_position_of_some hlook
  have hpos : ¬ ((29996:ℚ)/1000 < 0) := by norm_num
  have hm : pymod ((29996:ℚ)/1000) 30 = 29996/1000 := by
    have hf : ⌊(29996:ℚ)/1000/30⌋ = 0 := by
      rw [Int.floor_eq_iff]
      norm_num
    simp [pymod, hf]
  have hdeg : (calculate_natal_chart envBoundary reqBasic
      (TimeT.instant 0)).sun.degree = 30 := by
    rw [hsun]
    simp only [successResponse, eclipticToSign_snd, if_neg hpos, hm]
    norm_num [pyRound2]
  exact ⟨hdeg, by rw [hdeg]; exact lt_irrefl 30⟩

theorem chart_degrees_in_closed_interval_witness :
    ((calculate_natal_chart envBoundary reqBasic (TimeT.instant 0)).sun ∈
      allEntries (calculate_natal_chart envBoundary reqBasic (TimeT.instant 0))) ∧
    (0 ≤ (calculate_natal_chart envBoundary reqBasic
        (TimeT.instant 0)).sun.degree ∧
      (calculate_natal_chart envBoundary reqBasic
        (TimeT.instant 0)).sun.degree ≤ 30) := by
  have hmem : (calculate_natal_chart envBoundary reqBasic (TimeT.instant 0)).sun ∈
      allEntries (calculate_natal_chart envBoundary reqBasic (TimeT.instant 0)) := by
    simp [allEntries]
  exact ⟨hmem,
    chart_degrees_in_closed_interval envBoundary reqBasic (TimeT.instant 0) _ hmem⟩

theorem retrograde_always_false_witness :
    ((calculate_natal_chart envMarsDown reqBasic (TimeT.instant 0)).sun ∈
      allEntries (calculate_natal_chart envMarsDown reqBasic (TimeT.instant 0))) ∧
    (calculate_natal_chart envMarsDown reqBasic
      (TimeT.instant 0)).sun.retrograde = false := by
  have hmem : (calculate_natal_chart envMarsDown reqBasic (TimeT.instant 0)).sun ∈
      allEntries (calculate_natal_chart envMarsDown reqBasic (TimeT.instant 0)) := by
    simp [allEntries]
  exact ⟨hmem,
    retrograde_always_false envMarsDown reqBasic (TimeT.instant 0) _ hmem⟩

theorem single_body_failure_witness :
    ("mars" ∈ natalBodies) ∧
    envMarsDown.lookup (bodyKey "mars")
      (resolveTime reqBasic (TimeT.instant 0)) = none ∧
    (findBody (calculate_natal_chart envMarsDown reqBasic (TimeT.instant 0))
        "mars" = some (fallbackResponse "mars") ∧
      (∀ b', b' ∈ natalBodies → b' ≠ "mars" → ∀ L : ℚ,
        envMarsDown.lookup (bodyKey b')
          (resolveTime reqBasic (TimeT.instant 0)) = some L →
        findBody (calculate_natal_chart envMarsDown reqBasic (TimeT.instant 0))
          b' = some (successResponse b' L)) ∧
      (calculate_natal_chart envMarsDown reqBasic
        (TimeT.instant 0)).planets.length = 7 ∧
      (calculate_natal_chart envMarsDown reqBasic
        (TimeT.instant 0)).houses.length = 12) :=
  ⟨by decide, by decide,
    single_body_failure_degrades_only_that_body envMarsDown reqBasic
      (TimeT.instant 0) "mars" (by decide) (by decide)⟩

theorem malformed_birth_data_witness :
    parseBirthTime reqMalformed.birth_date reqMalformed.birth_time = none ∧
    (resolveTime reqMalformed (TimeT.instant 7) = TimeT.instant 7 ∧
      (allEntries (calculate_natal_chart envMarsDown reqMalformed
        (TimeT.instant 7))).length = 10 ∧
      (calculate_natal_chart envMarsDown reqMalformed
        (TimeT.instant 7)).houses.length = 12 ∧
      (calculate_natal_chart envMarsDown reqMalformed (TimeT.instant 7)).sun =
        calculate_planet_position envMarsDown "sun" (TimeT.instant 7)) :=
  ⟨by decide,
    malformed_birth_data_falls_back_to_now envMarsDown reqMalformed
      (TimeT.instant 7) (by decide)⟩

theorem chart_deterministic_witness :
    parseBirthTime reqBasic.birth_date reqBasic.birth_time =
      some (TimeT.utc 2000 1 6 0 0) ∧
    calculate_natal_chart envMarsDown reqBasic (TimeT.instant 0) =
      calculate_natal_chart envMarsDown reqBasic (TimeT.instant 1) :=
  ⟨by decide,
    chart_deterministic_and_request_time_independent envMarsDown reqBasic
      (TimeT.instant 0) (TimeT.instant 1) (TimeT.utc 2000 1 6 0 0) (by decide)⟩

theorem failed_body_reading_witness :
    ("mars" ∈ natalBodies) ∧
    envMarsDown.lookup (bodyKey "mars") (TimeT.utc 2000 1 6 0 0) = none ∧
    ((calculate_planet_position envMarsDown "mars"
        (TimeT.utc 2000 1 6 0 0)).reading = "" ∧
      (calculate_planet_position envMarsDown "mars"
        (TimeT.utc 2000 1 6 0 0)).reading ≠ get_reading "mars" "aries" ∧
      (calculate_planet_position envMarsDown "mars"
        (TimeT.utc 2000 1 6 0 0)).reading ≠ genericReading "mars" "aries") :=
  ⟨by decide, by decide,
    failed_body_reading_is_empty envMarsDown "mars" (TimeT.utc 2000 1 6 0 0)
      (by decide) (by decide)⟩
